import Mathlib

/-!
Shallow embedding of src/example-project/src/main.cpp.

The program builds a growable sequence of machine integers by a counting
loop bounded by the constant 3, prints each element followed by an
end-of-line that also flushes the stream, and returns 0.  All integer
values involved stay inside the signed 32-bit range, so machine integers
are embedded as Int with no wrap-around.
-/

/-- One observable action on a C++ output stream: writing a string of
bytes, or flushing the stream buffer. -/
inductive OutEvent where
  | write (s : String)
  | flush
deriving DecidableEq, Repr

/-- Decimal text produced when an Int is inserted into a C++ ostream. -/
def intDecimal (i : Int) : String := toString i

/-- The bytes that reach the destination of a stream after a trace of
events: concatenation of all writes; flushing adds no bytes. -/
def bytesOf (tr : List OutEvent) : String :=
  tr.foldl (fun acc e => match e with
    | OutEvent.write s => acc ++ s
    | OutEvent.flush => acc) ""

/-- The push_back operation of std::vector: append one element at the
end, preserving insertion order. -/
def pushBack (v : List Int) (x : Int) : List Int := v ++ [x]

/-- Body plus condition check of the building loop, run with the given
number of remaining permitted iterations.  The loop in main.cpp is
for i from 0 while i < 3, pushing i and incrementing by 1.  The first
argument is structural fuel; buildLoop supplies the exact remaining trip
count, so the semantics coincides with the C++ loop. -/
def buildLoopFuel : Nat → Int → List Int → List Int
  | 0, _, v => v
  | n + 1, i, v => if i < 3 then buildLoopFuel n (i + 1) (pushBack v i) else v

/-- The building loop of main.cpp started at counter i with current
vector v.  With counter i the loop has at most (3 - i).toNat trips left,
which is the fuel handed to buildLoopFuel. -/
def buildLoop (i : Int) (v : List Int) : List Int :=
  buildLoopFuel (3 - i).toNat i v

/-- The vector v after the building loop of main.cpp: counter starts at
0 and the vector starts empty. -/
def buildSeq : List Int := buildLoop 0 []

/-- The loop state (counter, vector) of the building loop at the k-th
iteration boundary: boundary 0 is the state just before the first
condition check, and each later boundary applies one more trip of the
loop body whenever the condition i < 3 still holds. -/
def buildState : Nat → Int × List Int
  | 0 => (0, [])
  | k + 1 =>
    let s := buildState k
    if s.1 < 3 then (s.1 + 1, pushBack s.2 s.1) else s

/-- The events emitted for one element i by the print statement
std::cout << i << std::endl: first the decimal text of i is written,
then the end-of-line manipulator writes a newline and flushes. -/
def perElemEvents (i : Int) : List OutEvent :=
  [OutEvent.write (intDecimal i), OutEvent.write "\n", OutEvent.flush]

/-- One trip of the printing loop body: the events so far, extended by
the events of printing the current element. -/
def coutLine (out : List OutEvent) (i : Int) : List OutEvent :=
  out ++ perElemEvents i

/-- The range-based printing loop of main.cpp: traverse v from first
element to last, emitting the print events of each element. -/
def printLoop (v : List Int) : List OutEvent := v.foldl coutLine []

/-- The positions of v dereferenced by the range-based traversal, in
the order they are visited: exactly the positions 0 up to length - 1. -/
def printReads (v : List Int) : List Nat := List.range v.length

/-- Observable result of one process run: the trace of events on the
standard output stream, the trace on the standard error stream, and the
exit status returned to the caller. -/
structure ProcResult where
  stdoutTrace : List OutEvent
  stderrTrace : List OutEvent
  exitStatus : Int
deriving DecidableEq, Repr

/-- One run of the program.  The command line and the environment of
the invocation are passed in, but main() declares no parameters and
reads no environment, so neither occurs in the body.  The body is the
two sequential loops of main.cpp followed by return 0; nothing is ever
written to the standard error stream. -/
def cppMain (args : List String) (env : List (String × String)) : ProcResult :=
  let v := buildSeq
  ⟨printLoop v, [], 0⟩

/-- Results of n consecutive runs of the program, in order.  The
program keeps no persistent state, so no information flows from one run
into the next. -/
def runSeq : Nat → List ProcResult
  | 0 => []
  | n + 1 => runSeq n ++ [cppMain [] []]

/-! Helper lemmas shared by the claim theorems. -/

/-- The vector built by the building loop is exactly 0, 1, 2. -/
theorem buildSeq_val : buildSeq = [0, 1, 2] := by decide

/-- Closed form of the loop state at every iteration boundary. -/
theorem buildState_closed (k : Nat) :
    buildState k = (Int.ofNat (min k 3), (List.range (min k 3)).map Int.ofNat) := by
  induction k with
  | zero => rfl
  | succ k ih =>
    simp only [buildState]
    rw [ih]
    by_cases h : k < 3
    · have hm : min k 3 = k := by omega
      have hm2 : min (k + 1) 3 = k + 1 := by omega
      have hc : Int.ofNat (min k 3) < 3 := by
        rw [hm]; show (k : Int) < 3; exact_mod_cast h
      rw [if_pos hc, hm, hm2, pushBack, List.range_succ, List.map_append]
      simp
    · have hm2 : min (k + 1) 3 = min k 3 := by omega
      have hc : ¬ Int.ofNat (min k 3) < 3 := by
        have : min k 3 = 3 := by omega
        rw [this]; decide
      rw [if_neg hc, hm2]

/-- The accumulator of the printing loop only grows at the back: folding
from any starting trace appends the per-element blocks in list order. -/
theorem foldl_coutLine (v : List Int) (acc : List OutEvent) :
    v.foldl coutLine acc = acc ++ List.flatten (v.map perElemEvents) := by
  induction v generalizing acc with
  | nil => simp
  | cons x xs ih =>
    simp only [List.foldl_cons, List.map_cons, List.flatten_cons, ih, coutLine,
      List.append_assoc]

/-- The printing loop emits, first element to last, the block of events
of each element. -/
theorem printLoop_flatten (v : List Int) :
    printLoop v = List.flatten (v.map perElemEvents) := by
  simpa using foldl_coutLine v []

/-! Claim theorems. -/

/-- C1: for every run with a writable standard output and no arguments
(any environment), the bytes reaching standard output are exactly the
three lines 0, 1, 2 in that order, each terminated by a newline and
nothing else; and the print phase emits the event block of each element
of the sequence from first element to last in insertion order. -/
theorem main_output_exact (env : List (String × String)) :
    bytesOf (cppMain [] env).stdoutTrace = "0\n1\n2\n" ∧
    (cppMain [] env).stdoutTrace = List.flatten (buildSeq.map perElemEvents) := by
  have he : cppMain [] env = cppMain [] [] := rfl
  rw [he]
  exact ⟨by decide, printLoop_flatten buildSeq⟩

/-- C2: after the build phase the sequence has length exactly 3, the
element at each position i in 0, 1, 2 equals i, no value 3 was appended
and the value 0 is present. -/
theorem build_postcondition :
    buildSeq.length = 3 ∧
    (∀ i : Nat, i < 3 → buildSeq[i]? = some (Int.ofNat i)) ∧
    (3 : Int) ∉ buildSeq ∧ (0 : Int) ∈ buildSeq := by
  refine ⟨by decide, ?_, by decide, by decide⟩
  intro i hi
  interval_cases i <;> decide

/-- Witness for C2 at the concrete position 1. -/
theorem build_postcondition_witness :
    buildSeq[1]? = some (Int.ofNat 1) ∧ (0 : Int) ∈ buildSeq :=
  ⟨build_postcondition.2.1 1 (by decide), build_postcondition.2.2.2⟩

/-- C3: on every normal completion, whatever the command line and the
environment, the program returns exit status 0 to its caller. -/
theorem exit_status_zero (args : List String) (env : List (String × String)) :
    (cppMain args env).exitStatus = 0 := rfl

/-- C4: every run in a sequence of consecutive runs under the same
normal conditions yields the same result as a single fresh run, with
the same output bytes each time: no hidden state carries between runs. -/
theorem runs_idempotent (n : Nat) (r : ProcResult) (h : r ∈ runSeq n) :
    r = cppMain [] [] ∧ bytesOf r.stdoutTrace = "0\n1\n2\n" := by
  induction n with
  | zero => simp [runSeq] at h
  | succ n ih =>
    simp only [runSeq, List.mem_append, List.mem_singleton] at h
    rcases h with h | h
    · exact ih h
    · exact ⟨h, by rw [h]; decide⟩

/-- Witness for C4: the second of two consecutive runs. -/
theorem runs_idempotent_witness :
    bytesOf (cppMain [] []).stdoutTrace = "0\n1\n2\n" :=
  (runs_idempotent 2 (cppMain [] []) (by simp [runSeq])).2

/-- C5: the observable result does not depend on command-line arguments
or environment variables: any two runs differing only in those inputs
have identical output traces and exit status. -/
theorem output_ignores_args_env (a1 a2 : List String)
    (e1 e2 : List (String × String)) : cppMain a1 e1 = cppMain a2 e2 := rfl

/-- C6: under normal operation nothing is ever written to any stream
other than standard output; in particular the standard error trace is
empty and contributes no bytes, for every command line and environment. -/
theorem stderr_silent (args : List String) (env : List (String × String)) :
    (cppMain args env).stderrTrace = [] ∧
    bytesOf (cppMain args env).stderrTrace = "" := ⟨rfl, rfl⟩

/-- C7: the program terminates on every run: the building loop exits at
boundary 3 where its condition fails and the state is stable from then
on, the print loop traverses the finite sequence of length 3 emitting
three events per element, and the run yields exit status 0 to signal
normal completion. -/
theorem program_terminates :
    ¬ (buildState 3).1 < 3 ∧
    (∀ k : Nat, 3 ≤ k → buildState k = buildState 3) ∧
    buildSeq.length = 3 ∧
    (printLoop buildSeq).length = 3 * buildSeq.length ∧
    (cppMain [] []).exitStatus = 0 := by
  refine ⟨by decide, ?_, by decide, by decide, rfl⟩
  intro k hk
  rw [buildState_closed k, buildState_closed 3]
  have : min k 3 = min 3 3 := by omega
  rw [this]

/-- Witness for C7: the loop state at boundary 5 equals the exit state. -/
theorem program_terminates_witness : buildState 5 = buildState 3 :=
  program_terminates.2.1 5 (by decide)

/-- C8: invariant of the building loop: at every iteration boundary the
length of the vector equals the loop counter, every stored position j
holds the value j, the counter never exceeds 3, and one trip of the
still-running loop pushes the counter value and increments the counter
by exactly 1. -/
theorem build_loop_invariant (k : Nat) :
    ((buildState k).2.length : Int) = (buildState k).1 ∧
    (∀ j : Nat, j < (buildState k).2.length →
      (buildState k).2[j]? = some (Int.ofNat j)) ∧
    (buildState k).1 ≤ 3 ∧
    ((buildState k).1 < 3 →
      buildState (k + 1) =
        ((buildState k).1 + 1, pushBack (buildState k).2 (buildState k).1)) := by
  have hclosed := buildState_closed k
  refine ⟨?_, ?_, ?_, ?_⟩
  · rw [hclosed]
    simp
  · intro j hj
    rw [hclosed] at hj ⊢
    simp only [List.length_map, List.length_range] at hj
    simp [List.getElem?_map, List.getElem?_range, hj]
  · rw [hclosed]
    show ((min k 3 : Nat) : Int) ≤ 3
    exact_mod_cast Nat.min_le_right k 3
  · intro hlt
    simp only [buildState]
    rw [if_pos hlt]

/-- Witness for C8 at boundary 2 and stored position 1. -/
theorem build_loop_invariant_witness :
    (buildState 2).2[1]? = some (Int.ofNat 1) ∧ (buildState 2).1 ≤ 3 :=
  ⟨(build_loop_invariant 2).2.1 1 (by decide), (build_loop_invariant 2).2.2.1⟩

/-- C9: every position the range-based print traversal dereferences is
in bounds, its read yields a stored element, and reading the visited
positions in order reproduces exactly the stored elements. -/
theorem print_reads_in_bounds :
    (∀ j : Nat, j ∈ printReads buildSeq →
      j < buildSeq.length ∧ (buildSeq[j]?).isSome) ∧
    (printReads buildSeq).map (fun j => buildSeq[j]?) = buildSeq.map some := by
  constructor
  · intro j hj
    have hlt : j < buildSeq.length := by
      simpa [printReads] using hj
    exact ⟨hlt, by rw [List.getElem?_eq_getElem hlt]; rfl⟩
  · decide

/-- Witness for C9 at the first visited position. -/
theorem print_reads_in_bounds_witness :
    0 < buildSeq.length ∧ (buildSeq[0]?).isSome :=
  print_reads_in_bounds.1 0 (by decide)

/-- C10: in the actual run each element print writes the decimal text,
then the newline, then immediately flushes before the next element is
written, so no flush is deferred to process exit; the trace of every
traversal is the flat sequence of such three-event blocks. -/
theorem flush_after_each_line :
    (cppMain [] []).stdoutTrace =
      [OutEvent.write "0", OutEvent.write "\n", OutEvent.flush,
       OutEvent.write "1", OutEvent.write "\n", OutEvent.flush,
       OutEvent.write "2", OutEvent.write "\n", OutEvent.flush] ∧
    ∀ v : List Int, printLoop v = List.flatten (v.map perElemEvents) :=
  ⟨by decide, printLoop_flatten⟩
